import Mathlib

/-!
Verification of the `league_win_loss` repository (two Streamlit scripts,
`app.py` and `max.py`) against its natural-language specification.

The development shallowly embeds the three core functions:
`scrape_league` (the FBref schedule extractor, modelled after the network
fetch with the fetch outcome as input), `get_team_results` (per-team result
reconstruction) and the streak detectors (`find_game_streaks` in `app.py`,
`find_3_game_streaks` in `max.py`).  Python exceptions that can escape a
function are modelled with `Except`; machine-level `int` is `Int`.
-/

namespace LeagueWinLoss

/-- The Unicode en-dash character (U+2013) that FBref uses inside score
cells such as 3–0. -/
def endash : Char := Char.ofNat 8211

/-- Python exceptions that can escape `scrape_league` or the streak
functions: they arise outside the `try` block of `scrape_league`
(`app.py` lines 58-85), whose `except` clause therefore does not catch
them. -/
inductive PyErr where
  | indexError
  | attributeError
  deriving DecidableEq, Repr

/-- Characters of a string with leading and trailing whitespace removed:
the char-list semantics of Python `str.strip()` and of BeautifulSoup
`get_text(strip=True)` on one text node. -/
def trimChars (cs : List Char) : List Char :=
  ((cs.dropWhile Char.isWhitespace).reverse.dropWhile Char.isWhitespace).reverse

/-- `str.strip()` as a string-to-string function. -/
def pyStrip (s : String) : String := String.mk (trimChars s.data)

/-- Python `str.split(sep)` for a one-character separator: split at every
occurrence, keeping empty parts; the empty string yields one empty part. -/
def splitChar (c : Char) : List Char → List (List Char)
  | [] => [[]]
  | x :: xs =>
    let r := splitChar c xs
    if x = c then [] :: r
    else
      match r with
      | h :: t => (x :: h) :: t
      | [] => [[x]]

/-- Value of a run of ASCII digit characters; `none` when the run is empty
or contains a non-digit. -/
def digitsVal (cs : List Char) : Option Nat :=
  if cs ≠ [] ∧ cs.all Char.isDigit then
    some (cs.foldl (fun a c => a * 10 + (c.toNat - 48)) 0)
  else none

/-- Model of Python `int(s)` on the strings this program feeds it:
surrounding whitespace is ignored, an optional sign is followed by one or
more decimal digits, anything else raises `ValueError` (here `none`).  In
particular `int` accepts a leading `-` and yields a negative value. -/
def parseIntPy (s : String) : Option Int :=
  match trimChars s.data with
  | [] => none
  | c :: rest =>
    if c = '-' then (digitsVal rest).map (fun n => -Int.ofNat n)
    else if c = '+' then (digitsVal rest).map Int.ofNat
    else (digitsVal (c :: rest)).map Int.ofNat

/-- Tuple unpacking `home, away = parts`: succeeds exactly when the split
has two parts, otherwise Python raises `ValueError`, which the row loop
catches and turns into a skip. -/
def splitPair : List (List Char) → Option (String × String)
  | [a, b] => some (String.mk a, String.mk b)
  | _ => none

/-- Score-cell splitting, `app.py` lines 135-141: the cell must be nonempty
and contain an en-dash or an ASCII hyphen; it is split on the en-dash when
one is present, otherwise on the hyphen (Python `str.split` splits on every
occurrence), and the parts are unpacked with `splitPair`. -/
def splitScore (score : String) : Option (String × String) :=
  if score = "" then none
  else if ¬ score.data.contains endash ∧ ¬ score.data.contains '-' then none
  else if score.data.contains endash then splitPair (splitChar endash score.data)
  else splitPair (splitChar '-' score.data)

/-- Index that the Python dict comprehension of `app.py` line 96 followed
by `.get` assigns to `name`, starting the count at `i`: later duplicates
overwrite earlier ones, so the result is the last position of `name`,
`none` when absent. -/
def lastIndexOfFrom (name : String) : List String → Nat → Option Nat
  | [], _ => none
  | h :: t, i =>
    match lastIndexOfFrom name t (i + 1) with
    | some j => some j
    | none => if h = name then some i else none

/-- `col_map.get(name)` for the column map of `app.py` line 96. -/
def lastIndexOf (hs : List String) (name : String) : Option Nat :=
  lastIndexOfFrom name hs 0

/-- Positions of all header cells literally equal to xG, `app.py`
line 106. -/
def xgIndices (hs : List String) : List Nat :=
  (List.range hs.length).filter (fun i => hs.getD i "" == "xG")

/-- One table-body row: its class attribute values and the raw text of its
th/td cells (the code strips each text when reading it). -/
structure HtmlRow where
  classes : List String
  cells : List String
  deriving DecidableEq, Repr

/-- The schedule table: the rows of its thead (`none` when the table has no
thead element; each row is the list of its cell texts) and the rows of its
tbody (`none` when there is no tbody element). -/
structure HtmlTable where
  theadRows : Option (List (List String))
  tbodyRows : Option (List HtmlRow)
  deriving DecidableEq, Repr

/-- A parsed page: `none` when no schedule div is found, `some none` when
the div holds no table. -/
structure Doc where
  schedTable : Option (Option HtmlTable)
  deriving DecidableEq, Repr

/-- Outcome of `requests.get` and page parsing: either an exception during
the request (raised inside the `try` block, hence caught) or a status code
together with the parsed page. -/
inductive Fetch where
  | raise
  | resp (status : Nat) (doc : Doc)
  deriving DecidableEq, Repr

/-- One normalized match record as assembled in `app.py` lines 146-157.
Scores are `Int` because Python `int()` accepts signed numerals. -/
structure MatchRecord where
  league_name : String
  league_id : Nat
  date : String
  home_team : String
  home_xg : String
  away_team : String
  away_xg : String
  home_score : Int
  away_score : Int
  score : String
  deriving DecidableEq, Repr

/-- The xG cell reading of `app.py` lines 132-133: the Python conditional
expression
`cols[home_xg_idx].get_text(strip=True) if home_xg_idx and len(cols) > home_xg_idx else ''`.
Note the truthiness test: a resolved index of `None` or of 0 both yield the
empty string. -/
def xgCell (idx : Option Nat) (cols : List String) : String :=
  match idx with
  | some k => if k ≠ 0 ∧ k < cols.length then pyStrip (cols.getD k "") else ""
  | none => ""

/-- Body of the row loop of `scrape_league`, `app.py` lines 117-159: spacer
rows and rows with at most `max` required-index cells are skipped; each
needed cell text is stripped; the score cell is split and both sides parsed
with `int`, a failure (`ValueError`) skipping the row.  An xG cell is read
only when the resolved index is truthy — which wrongly excludes index 0 —
and within the row, mirroring the Python conditional expression
`cols[home_xg_idx].get_text(strip=True) if home_xg_idx and len(cols) > home_xg_idx else ''`. -/
def parseRow (di hi si ai : Nat) (hxg axg : Option Nat)
    (league_name : String) (league_id : Nat) (row : HtmlRow) :
    Option MatchRecord :=
  if "spacer" ∈ row.classes then none
  else
    let cols := row.cells
    if cols.length ≤ max (max (max di hi) si) ai then none
    else
      let date := pyStrip (cols.getD di "")
      let home_team := pyStrip (cols.getD hi "")
      let score := pyStrip (cols.getD si "")
      let away_team := pyStrip (cols.getD ai "")
      let home_xg := xgCell hxg cols
      let away_xg := xgCell axg cols
      match splitScore score with
      | none => none
      | some (a, b) =>
        match parseIntPy a, parseIntPy b with
        | some h, some w =>
          some { league_name := league_name, league_id := league_id,
                 date := date, home_team := home_team, home_xg := home_xg,
                 away_team := away_team, away_xg := away_xg,
                 home_score := h, away_score := w, score := score }
        | _, _ => none

/-- `scrape_league` of `app.py` (lines 53-161) with the network fetch
abstracted as input (the spec's extractor contract passes the document
together with `league_name` and `league_id`; in the script `league_id` is
looked up from the static league table by the same name).  `.ok` is a
normal return, `.error` a Python exception escaping the function: the
`try` block ends at line 85, so the header and body handling below it can
raise.  Specifically `thead.find_all('tr')[-1]` raises `IndexError` when
the thead has no rows, and `tbody.find_all('tr')` raises `AttributeError`
when `table.find('tbody')` returned `None`. -/
def scrape_league (fetch : Fetch) (league_name : String) (league_id : Nat) :
    Except PyErr (List MatchRecord) :=
  match fetch with
  | .raise => .ok []
  | .resp status doc =>
    if status = 429 then .ok []
    else if status ≠ 200 then .ok []
    else
      match doc.schedTable with
      | none => .ok []
      | some none => .ok []
      | some (some table) =>
        match table.theadRows with
        | none => .ok []
        | some trs =>
          match trs.getLast? with
          | none => .error .indexError
          | some lastTr =>
            let headers := lastTr.map pyStrip
            let di := lastIndexOf headers "Date"
            let hi := lastIndexOf headers "Home"
            let si := lastIndexOf headers "Score"
            let ai := lastIndexOf headers "Away"
            let xgs := xgIndices headers
            match di, hi, si, ai with
            | some d, some h, some s, some a =>
              match table.tbodyRows with
              | none => .error .attributeError
              | some rows =>
                .ok (rows.filterMap
                  (parseRow d h s a (xgs.get? 0) (xgs.get? 1) league_name league_id))
            | _, _, _, _ => .ok []

/-- The header row `scrape_league` works from: the last thead row, defined
exactly when the schedule div, the table, a thead and at least one thead
row are all present (cell texts stripped, as the code does). -/
def headersOf (d : Doc) : Option (List String) :=
  match d.schedTable with
  | some (some table) =>
    match table.theadRows with
    | some trs => (trs.getLast?).map (fun tr => tr.map pyStrip)
    | none => none
  | _ => none

/-- The body rows of the schedule table, when a tbody is present. -/
def tbodyOf (d : Doc) : Option (List HtmlRow) :=
  match d.schedTable with
  | some (some table) => table.tbodyRows
  | _ => none

/-- One row of the frame returned by `get_team_results` (`app.py`
line 191): the match seen from one team's side.  `location` is the string
H or A and `result` the string W, L or D, exactly the one-character strings
the code stores. -/
structure TRow where
  date : String
  opponent : String
  location : String
  team_score : Int
  opp_score : Int
  team_xg : String
  opp_xg : String
  result : String
  league_name : String
  league_id : Nat
  deriving DecidableEq, Repr

/-- The result lambda of `app.py` lines 185-189. -/
def resultOf (team_score opp_score : Int) : String :=
  if team_score > opp_score then "W"
  else if team_score < opp_score then "L" else "D"

/-- A home match mapped to the team's perspective, `app.py` lines 165-171
(the code attaches `result` after sorting; the rows are the same). -/
def mkHomeRow (m : MatchRecord) : TRow :=
  { date := m.date, opponent := m.away_team, location := "H",
    team_score := m.home_score, opp_score := m.away_score,
    team_xg := m.home_xg, opp_xg := m.away_xg,
    result := resultOf m.home_score m.away_score,
    league_name := m.league_name, league_id := m.league_id }

/-- An away match mapped to the team's perspective with home and away
fields swapped, `app.py` lines 173-179. -/
def mkAwayRow (m : MatchRecord) : TRow :=
  { date := m.date, opponent := m.home_team, location := "A",
    team_score := m.away_score, opp_score := m.home_score,
    team_xg := m.away_xg, opp_xg := m.home_xg,
    result := resultOf m.away_score m.home_score,
    league_name := m.league_name, league_id := m.league_id }

/-- The ordering of `sort_values('date', ascending=False)`: earlier rows
have lexically larger-or-equal date strings.  The source sorts with an
unstable quicksort; no observable property of the program depends on the
order of date ties, so insertion sort is an adequate embedding. -/
def dateDesc : TRow → TRow → Prop := fun a b => b.date.data ≤ a.date.data

instance : DecidableRel dateDesc := fun a b =>
  inferInstanceAs (Decidable (b.date.data ≤ a.date.data))

instance : IsTotal TRow dateDesc := ⟨fun a b => le_total b.date.data a.date.data⟩

instance : IsTrans TRow dateDesc := ⟨fun _ _ _ h1 h2 => le_trans h2 h1⟩

/-- `get_team_results` of `app.py` (lines 163-191): home matches of the
team, then its away matches with fields swapped, sorted descending by the
raw date string. -/
def get_team_results (df : List MatchRecord) (team : String) : List TRow :=
  let home_games := (df.filter (fun m => m.home_team == team)).map mkHomeRow
  let away_games := (df.filter (fun m => m.away_team == team)).map mkAwayRow
  List.insertionSort dateDesc (home_games ++ away_games)

/-- The joined result string of a window of rows, as in
`''.join(last_wins['result'].tolist())`. -/
def resultsStr : List TRow → String
  | [] => ""
  | r :: l => r.result ++ resultsStr l

/-- Python string repetition, as in `'W' * win_streak_count`. -/
def repeatStr (c : String) : Nat → String
  | 0 => ""
  | n + 1 => c ++ repeatStr c n

/-- One qualifying streak as collected by `find_game_streaks`
(`app.py` lines 212-217 and 225-230). -/
structure StreakGroup where
  team : String
  league_name : String
  league_id : Nat
  games : List TRow
  deriving DecidableEq, Repr

/-- The team universe, `app.py` line 195.  Python sets iterate in an
unspecified order; the embedding fixes one, and no claim depends on it. -/
def teamsOf (df : List MatchRecord) : List String :=
  (df.map MatchRecord.home_team ++ df.map MatchRecord.away_team).dedup

/-- One streak check of `find_game_streaks` (`app.py` lines 207-217 for
wins with target string W, lines 220-230 for losses with target L): take
the leading `n` rows; when their joined result string equals the target
repeated `n` times, build the group from those rows.  Reading
`last_wins.iloc[0]` raises `IndexError` when the window is empty, which
happens exactly when the pattern matches with `n = 0`. -/
def streakCheck (team : String) (results : List TRow) (n : Nat) (c : String) :
    Except PyErr (Option StreakGroup) :=
  let w := results.take n
  if resultsStr w = repeatStr c n then
    match w with
    | [] => .error .indexError
    | r :: _ => .ok (some { team := team, league_name := r.league_name,
                            league_id := r.league_id, games := w })
  else .ok none

/-- The per-team loop of `find_game_streaks` over an explicit team list:
teams with fewer results than the larger streak length are skipped, the win
and the loss window are checked independently, and each qualifying team is
appended in iteration order. -/
def streaksLoop (df : List MatchRecord) (wn ls : Nat) :
    List String → Except PyErr (List StreakGroup × List StreakGroup)
  | [] => .ok ([], [])
  | t :: ts =>
    let results := get_team_results df t
    if results.length < max wn ls then streaksLoop df wn ls ts
    else
      match (if wn ≤ results.length then streakCheck t results wn "W" else .ok none) with
      | .error e => .error e
      | .ok w =>
        match (if ls ≤ results.length then streakCheck t results ls "L" else .ok none) with
        | .error e => .error e
        | .ok l =>
          match streaksLoop df wn ls ts with
          | .error e => .error e
          | .ok (ws, lss) => .ok (w.toList ++ ws, l.toList ++ lss)

/-- `find_game_streaks` of `app.py` (lines 193-232). -/
def find_game_streaks (df : List MatchRecord) (wn ls : Nat) :
    Except PyErr (List StreakGroup × List StreakGroup) :=
  streaksLoop df wn ls (teamsOf df)

/-- The match record assembled by `max.py` lines 144-154: same fields as
`app.py` except that the league is stored under the single key `league`
and no league identifier is kept. -/
structure MatchRecordM where
  league : String
  date : String
  home_team : String
  home_xg : String
  away_team : String
  away_xg : String
  home_score : Int
  away_score : Int
  score : String
  deriving DecidableEq, Repr

/-- One row of `max.py`'s `get_team_results` output (line 188). -/
structure TRowM where
  date : String
  opponent : String
  location : String
  team_score : Int
  opp_score : Int
  team_xg : String
  opp_xg : String
  result : String
  league : String
  deriving DecidableEq, Repr

/-- Home-side row of `max.py` lines 162-168. -/
def mkHomeRowM (m : MatchRecordM) : TRowM :=
  { date := m.date, opponent := m.away_team, location := "H",
    team_score := m.home_score, opp_score := m.away_score,
    team_xg := m.home_xg, opp_xg := m.away_xg,
    result := resultOf m.home_score m.away_score, league := m.league }

/-- Away-side row of `max.py` lines 170-176, fields swapped. -/
def mkAwayRowM (m : MatchRecordM) : TRowM :=
  { date := m.date, opponent := m.home_team, location := "A",
    team_score := m.away_score, opp_score := m.home_score,
    team_xg := m.away_xg, opp_xg := m.home_xg,
    result := resultOf m.away_score m.home_score, league := m.league }

/-- Date ordering for `max.py` rows. -/
def dateDescM : TRowM → TRowM → Prop := fun a b => b.date.data ≤ a.date.data

instance : DecidableRel dateDescM := fun a b =>
  inferInstanceAs (Decidable (b.date.data ≤ a.date.data))

instance : IsTotal TRowM dateDescM := ⟨fun a b => le_total b.date.data a.date.data⟩

instance : IsTrans TRowM dateDescM := ⟨fun _ _ _ h1 h2 => le_trans h2 h1⟩

/-- `get_team_results` of `max.py` (lines 160-188), identical to the
`app.py` version up to the league field. -/
def get_team_resultsM (df : List MatchRecordM) (team : String) : List TRowM :=
  let home_games := (df.filter (fun m => m.home_team == team)).map mkHomeRowM
  let away_games := (df.filter (fun m => m.away_team == team)).map mkAwayRowM
  List.insertionSort dateDescM (home_games ++ away_games)

/-- Joined result string for `max.py` rows. -/
def resultsStrM : List TRowM → String
  | [] => ""
  | r :: l => r.result ++ resultsStrM l

/-- One qualifying streak as collected by `find_3_game_streaks`
(`max.py` lines 209-213 and 217-221). -/
structure StreakGroupM where
  team : String
  league : String
  games : List TRowM
  deriving DecidableEq, Repr

/-- Team universe of `max.py` line 192. -/
def teamsOfM (df : List MatchRecordM) : List String :=
  (df.map MatchRecordM.home_team ++ df.map MatchRecordM.away_team).dedup

/-- Per-team loop of `find_3_game_streaks` (`max.py` lines 197-221): the
window is the leading three rows, the win pattern is checked first and the
loss pattern only in an `elif` branch. -/
def streaksLoopM (df : List MatchRecordM) :
    List String → Except PyErr (List StreakGroupM × List StreakGroupM)
  | [] => .ok ([], [])
  | t :: ts =>
    let results := get_team_resultsM df t
    if results.length < 3 then streaksLoopM df ts
    else
      let last3 := results.take 3
      if resultsStrM last3 = "WWW" then
        match last3 with
        | [] => .error .indexError
        | r :: _ =>
          match streaksLoopM df ts with
          | .error e => .error e
          | .ok (ws, lss) => .ok ({ team := t, league := r.league, games := last3 } :: ws, lss)
      else if resultsStrM last3 = "LLL" then
        match last3 with
        | [] => .error .indexError
        | r :: _ =>
          match streaksLoopM df ts with
          | .error e => .error e
          | .ok (ws, lss) => .ok (ws, { team := t, league := r.league, games := last3 } :: lss)
      else streaksLoopM df ts

/-- `find_3_game_streaks` of `max.py` (lines 190-223). -/
def find_3_game_streaks (df : List MatchRecordM) :
    Except PyErr (List StreakGroupM × List StreakGroupM) :=
  streaksLoopM df (teamsOfM df)

/-- An `app.py` record seen through `max.py`'s schema: drop `league_id`,
store `league_name` under `league`. -/
def toM (m : MatchRecord) : MatchRecordM :=
  { league := m.league_name, date := m.date, home_team := m.home_team,
    home_xg := m.home_xg, away_team := m.away_team, away_xg := m.away_xg,
    home_score := m.home_score, away_score := m.away_score, score := m.score }

/-- An `app.py` team-result row seen through `max.py`'s schema. -/
def projT (r : TRow) : TRowM :=
  { date := r.date, opponent := r.opponent, location := r.location,
    team_score := r.team_score, opp_score := r.opp_score,
    team_xg := r.team_xg, opp_xg := r.opp_xg, result := r.result,
    league := r.league_name }

/-- Comparable view of an `app.py` streak group: the team together with its
window rows in the common schema. -/
def projG (g : StreakGroup) : String × List TRowM := (g.team, g.games.map projT)

/-- Comparable view of a `max.py` streak group. -/
def projGM (g : StreakGroupM) : String × List TRowM := (g.team, g.games)

/-! ### Concrete documents and match collections used by the theorems -/

/-- A header block whose single row has the four required columns. -/
def hdr4 : List (List String) := [["Date", "Home", "Score", "Away"]]

/-- A plain data row with the four required cells. -/
def mkRow4 (d h s a : String) : HtmlRow := { classes := [], cells := [d, h, s, a] }

/-- The score text -1–2 (hyphen-minus, 1, en-dash, 2). -/
def scoreNeg : String := String.mk ['-', '1', endash, '2']

/-- The score text 3–0 (en-dash). -/
def scoreEn30 : String := String.mk ['3', endash, '0']

/-- The score text 1–-2 (en-dash, then hyphen): both separator characters
occur, so it discriminates which one the split happens on. -/
def scoreBoth : String := String.mk ['1', endash, '-', '2']

/-- Document with one row whose score text carries a signed numeral. -/
def docC1 : Doc :=
  { schedTable := some (some
    { theadRows := some hdr4,
      tbodyRows := some [mkRow4 "d1" "A" scoreNeg "B"] }) }

/-- Document whose table has a thead element containing zero rows. -/
def docEmptyThead : Doc :=
  { schedTable := some (some { theadRows := some [], tbodyRows := some [] }) }

/-- Document whose table has no thead element at all. -/
def docNoThead : Doc :=
  { schedTable := some (some { theadRows := none, tbodyRows := some [] }) }

/-- Document whose table has a good header but no tbody element. -/
def docNoTbody : Doc :=
  { schedTable := some (some { theadRows := some hdr4, tbodyRows := none }) }

/-- Document exercising the score formats of claim C5: a hyphen score, an
en-dash score, a non-numeric score, an empty score and an unseparated
numeric score. -/
def docC5 : Doc :=
  { schedTable := some (some
    { theadRows := some hdr4,
      tbodyRows := some
        [ mkRow4 "d1" "A" "2-2" "B",
          mkRow4 "d2" "C" scoreEn30 "D",
          mkRow4 "d3" "E" "postponed" "F",
          mkRow4 "d4" "G" "" "H",
          mkRow4 "d5" "I" "12" "J" ] }) }

/-- Document whose first xG column sits at positional index 0. -/
def docC6 : Doc :=
  { schedTable := some (some
    { theadRows := some [["xG", "Date", "Home", "Score", "Away", "xG"]],
      tbodyRows := some
        [ { classes := [], cells := ["1.5", "d1", "A", "2-1", "B", "0.5"] } ] }) }

/-- Document with xG columns at indices 1 and 5 — both usable. -/
def docC6b : Doc :=
  { schedTable := some (some
    { theadRows := some [["Date", "xG", "Home", "Score", "Away", "xG"]],
      tbodyRows := some
        [ { classes := [], cells := ["d1", "1.5", "A", "2-1", "B", "0.5"] } ] }) }

/-- Document with the required columns except `Score`. -/
def docC8 : Doc :=
  { schedTable := some (some
    { theadRows := some [["Date", "Home", "Away"]],
      tbodyRows := some [{ classes := [], cells := ["d1", "A", "B"] }] }) }

/-- Shorthand for a played home fixture of team T in league PL. -/
def mkM (d opp : String) (ts os : Int) : MatchRecord :=
  { league_name := "PL", league_id := 9, date := d, home_team := "T",
    home_xg := "", away_team := opp, away_xg := "", home_score := ts,
    away_score := os, score := "" }

/-- Five matches of team T whose results, most recent first, read
W, W, W, L, W. -/
def dfC3 : List MatchRecord :=
  [mkM "2024-05-05" "O1" 2 1, mkM "2024-05-04" "O2" 3 0, mkM "2024-05-03" "O3" 1 0,
   mkM "2024-05-02" "O4" 0 1, mkM "2024-05-01" "O5" 2 0]

/-- Five matches of team T that are all wins: a five-game streak. -/
def dfC3five : List MatchRecord :=
  [mkM "2024-05-05" "O1" 2 1, mkM "2024-05-04" "O2" 3 0, mkM "2024-05-03" "O3" 1 0,
   mkM "2024-05-02" "O4" 2 1, mkM "2024-05-01" "O5" 2 0]

/-- The collection of `dfC3` with the third most recent result changed to a
draw: W, W, D, L, W. -/
def dfC3draw : List MatchRecord :=
  [mkM "2024-05-05" "O1" 2 1, mkM "2024-05-04" "O2" 3 0, mkM "2024-05-03" "O3" 0 0,
   mkM "2024-05-02" "O4" 0 1, mkM "2024-05-01" "O5" 2 0]

/-- A match whose home and away participant carry the same name. -/
def selfMatch : MatchRecord :=
  { league_name := "PL", league_id := 9, date := "d1", home_team := "A",
    home_xg := "", away_team := "A", away_xg := "", home_score := 1,
    away_score := 0, score := "1-0" }

/-- Three matches all won by team A over team B: A is on a three-win
streak and B on a three-loss streak. -/
def dfC7w : List MatchRecord :=
  [ { league_name := "PL", league_id := 9, date := "d3", home_team := "A", home_xg := "",
      away_team := "B", away_xg := "", home_score := 2, away_score := 1, score := "2-1" },
    { league_name := "PL", league_id := 9, date := "d2", home_team := "A", home_xg := "",
      away_team := "B", away_xg := "", home_score := 3, away_score := 0, score := "3-0" },
    { league_name := "PL", league_id := 9, date := "d1", home_team := "A", home_xg := "",
      away_team := "B", away_xg := "", home_score := 1, away_score := 0, score := "1-0" } ]

/-! ### Helper lemmas -/

lemma lastIndexOfFrom_some_mem (name : String) :
    ∀ (hs : List String) (i j : Nat), lastIndexOfFrom name hs i = some j → name ∈ hs := by
  intro hs
  induction hs with
  | nil => intro i j h; cases h
  | cons hd tl ih =>
    intro i j h
    rw [lastIndexOfFrom] at h
    cases hrec : lastIndexOfFrom name tl (i + 1) with
    | some k => exact List.mem_cons_of_mem hd (ih (i + 1) k hrec)
    | none =>
      rw [hrec] at h
      by_cases hh : hd = name
      · exact hh ▸ List.mem_cons_self hd tl
      · rw [if_neg hh] at h; cases h

lemma lastIndexOf_eq_none (hs : List String) (name : String) :
    lastIndexOf hs name = none ↔ name ∉ hs := by
  rw [lastIndexOf]
  generalize 0 = i
  induction hs generalizing i with
  | nil => simp [lastIndexOfFrom]
  | cons hd tl ih =>
    rw [lastIndexOfFrom]
    cases hrec : lastIndexOfFrom name tl (i + 1) with
    | some k =>
      have hmem : name ∈ tl := lastIndexOfFrom_some_mem name tl (i + 1) k hrec
      simp [List.mem_cons, hmem]
    | none =>
      have htl : name ∉ tl := (ih (i + 1)).mp hrec
      by_cases hh : hd = name
      · subst hh
        simp
      · rw [if_neg hh]
        simp only [List.mem_cons]
        constructor
        · rintro - (he | hm)
          · exact hh he.symm
          · exact htl hm
        · intro _
          trivial

/-- Inversion for successful runs of the extractor: the record list is
either empty or the row-wise `filterMap` of the resolved-column row
parser. -/
lemma scrape_league_ok_inv (fetch : Fetch) (nm : String) (lid : Nat)
    (out : List MatchRecord) (h : scrape_league fetch nm lid = .ok out) :
    out = [] ∨ ∃ (hs : List String) (rows : List HtmlRow) (d1 h1 s1 a1 : Nat), out =
      rows.filterMap
        (parseRow d1 h1 s1 a1 ((xgIndices hs).get? 0) ((xgIndices hs).get? 1) nm lid) := by
  cases fetch with
  | raise => exact Or.inl (Except.ok.inj h).symm
  | resp status doc =>
    obtain ⟨st⟩ := doc
    simp only [scrape_league] at h
    by_cases h429 : status = 429
    · rw [if_pos h429] at h
      exact Or.inl (Except.ok.inj h).symm
    rw [if_neg h429] at h
    by_cases h200 : status ≠ 200
    · rw [if_pos h200] at h
      exact Or.inl (Except.ok.inj h).symm
    rw [if_neg h200] at h
    cases st with
    | none => exact Or.inl (Except.ok.inj h).symm
    | some ot =>
    cases ot with
    | none => exact Or.inl (Except.ok.inj h).symm
    | some table =>
    obtain ⟨th, tb⟩ := table
    cases th with
    | none => exact Or.inl (Except.ok.inj h).symm
    | some trs =>
    dsimp only at h
    cases htr : trs.getLast? with
    | none => rw [htr] at h; cases h
    | some lastTr =>
    rw [htr] at h
    dsimp only at h
    cases hdi : lastIndexOf (lastTr.map pyStrip) "Date" with
    | none => rw [hdi] at h; dsimp only at h; exact Or.inl (Except.ok.inj h).symm
    | some d1 =>
    rw [hdi] at h
    cases hhi : lastIndexOf (lastTr.map pyStrip) "Home" with
    | none => rw [hhi] at h; dsimp only at h; exact Or.inl (Except.ok.inj h).symm
    | some h1 =>
    rw [hhi] at h
    cases hsi : lastIndexOf (lastTr.map pyStrip) "Score" with
    | none => rw [hsi] at h; dsimp only at h; exact Or.inl (Except.ok.inj h).symm
    | some s1 =>
    rw [hsi] at h
    cases hai : lastIndexOf (lastTr.map pyStrip) "Away" with
    | none => rw [hai] at h; dsimp only at h; exact Or.inl (Except.ok.inj h).symm
    | some a1 =>
    rw [hai] at h
    dsimp only at h
    cases tb with
    | none => cases h
    | some rows =>
      exact Or.inr ⟨lastTr.map pyStrip, rows, d1, h1, s1, a1, (Except.ok.inj h).symm⟩

/-- Shape of a successfully parsed row: the record carries the league data
passed in and both scores come from a successful split-and-parse of its
own score text. -/
lemma parseRow_spec (d1 h1 s1 a1 : Nat) (hxg axg : Option Nat) (nm : String)
    (lid : Nat) (row : HtmlRow) (rec : MatchRecord)
    (h : parseRow d1 h1 s1 a1 hxg axg nm lid row = some rec) :
    rec.league_name = nm ∧ rec.league_id = lid ∧
    ∃ a b, splitScore rec.score = some (a, b) ∧
      parseIntPy a = some rec.home_score ∧ parseIntPy b = some rec.away_score := by
  simp only [parseRow] at h
  split at h
  · cases h
  · split at h
    · cases h
    · split at h
      · cases h
      · rename_i a b hsp
        split at h
        · rename_i hv wv hpa hpb
          injection h with h
          subst h
          exact ⟨rfl, rfl, a, b, hsp, by rw [hpa], by rw [hpb]⟩
        · cases h

/-- A value parsed by Python `int` is non-negative when the trimmed text
does not start with a minus sign. -/
lemma parseIntPy_nonneg (s : String) (v : Int) (h : parseIntPy s = some v)
    (hns : (trimChars s.data).head? ≠ some '-') : 0 ≤ v := by
  rw [parseIntPy] at h
  split at h
  · cases h
  · rename_i c rest heq
    have hc : c ≠ '-' := by
      intro hc
      exact hns (by rw [heq, hc]; rfl)
    rw [if_neg hc] at h
    by_cases hp : c = '+'
    · rw [if_pos hp] at h
      cases hd : digitsVal rest with
      | none => rw [hd] at h; cases h
      | some n =>
        rw [hd, Option.map_some'] at h
        injection h with h
        rw [← h]
        exact Int.ofNat_nonneg n
    · rw [if_neg hp] at h
      cases hd : digitsVal (c :: rest) with
      | none => rw [hd] at h; cases h
      | some n =>
        rw [hd, Option.map_some'] at h
        injection h with h
        rw [← h]
        exact Int.ofNat_nonneg n

/-! ### Claim theorems -/

/-- C2 — code bug.  The claim states that `scrape_league` never raises past
the per-league boundary and that a failure to retrieve or parse the
document as a whole (network failure, non-success status, absent table
structure, absent or empty header row, absent body) yields an empty
sequence.  The code does recover from a fetch exception, a 429 or other
non-200 status, a missing schedule div, a missing table and a missing
thead element — but its `try` block ends before the header handling, so a
thead with zero rows raises `IndexError` (from `find_all('tr')[-1]`) and a
missing tbody raises `AttributeError` (from `tbody.find_all('tr')` with
`tbody = None`), both escaping to the caller. -/
theorem C2_uncaught_exceptions :
    scrape_league .raise "Premier League" 9 = .ok [] ∧
    scrape_league (.resp 429 (Doc.mk none)) "Premier League" 9 = .ok [] ∧
    scrape_league (.resp 500 (Doc.mk none)) "Premier League" 9 = .ok [] ∧
    scrape_league (.resp 200 (Doc.mk none)) "Premier League" 9 = .ok [] ∧
    scrape_league (.resp 200 (Doc.mk (some none))) "Premier League" 9 = .ok [] ∧
    scrape_league (.resp 200 docNoThead) "Premier League" 9 = .ok [] ∧
    scrape_league (.resp 200 docEmptyThead) "Premier League" 9 = .error .indexError ∧
    scrape_league (.resp 200 docNoTbody) "Premier League" 9 = .error .attributeError :=
  ⟨rfl, rfl, rfl, rfl, rfl, rfl, rfl, rfl⟩

/-- C3 — confirmed.  On a team whose ordered results (most recent first)
are W, W, W, L, W, `find_game_streaks` with a win length of 3 places the
team in the win group carrying exactly the leading three rows; a team with
five straight wins also qualifies with the leading three rows; changing
the third entry to a draw removes the team from both groups. -/
theorem C3_streak_window :
    ((get_team_results dfC3 "T").map TRow.result = ["W", "W", "W", "L", "W"] ∧
      find_game_streaks dfC3 3 3 =
        .ok ([{ team := "T", league_name := "PL", league_id := 9,
                games := (get_team_results dfC3 "T").take 3 }], [])) ∧
    ((get_team_results dfC3five "T").map TRow.result = ["W", "W", "W", "W", "W"] ∧
      find_game_streaks dfC3five 3 3 =
        .ok ([{ team := "T", league_name := "PL", league_id := 9,
                games := (get_team_results dfC3five "T").take 3 }], [])) ∧
    ((get_team_results dfC3draw "T").map TRow.result = ["W", "W", "D", "L", "W"] ∧
      find_game_streaks dfC3draw 3 3 = .ok ([], [])) :=
  ⟨⟨rfl, rfl⟩, ⟨rfl, rfl⟩, ⟨rfl, rfl⟩⟩

/-- C1 — counterexample to the claim as stated.  A row whose score text is
-1–2 passes the separator test (it contains an en-dash), splits into -1
and 2, and Python `int` parses the signed numeral, so `scrape_league`
emits a record whose `home_score` is the negative integer -1. -/
theorem C1_negative_score_counterexample :
    scrape_league (.resp 200 docC1) "Premier League" 9 =
      .ok [{ league_name := "Premier League", league_id := 9, date := "d1",
             home_team := "A", home_xg := "", away_team := "B", away_xg := "",
             home_score := -1, away_score := 2, score := scoreNeg }] ∧
    ¬ (0 ≤ (-1 : Int)) :=
  ⟨rfl, by decide⟩

/-- C4 — counterexample to the claim as stated.  A match in which the same
name is both the home and the away participant is picked up by both the
home filter and the away filter of `get_team_results`, so it contributes
two rows while it is a single match in which the team participates: the
claimed row-count equality fails and the match does not appear exactly
once. -/
theorem C4_self_match_counterexample :
    (get_team_results [selfMatch] "A").length = 2 ∧
    (([selfMatch].filter
        (fun m => m.home_team == "A" || m.away_team == "A")).length = 1) := by
  decide

/-- C6 — counterexample to the claim as stated.  With header columns
xG, Date, Home, Score, Away, xG the first xG occurrence sits at positional
index 0; the claim says that occurrence (wherever it is positioned,
including index 0) supplies `home_xg`, but the code's presence test
`if home_xg_idx and ...` treats the index 0 as falsy, so the emitted
record has an empty `home_xg` although the cell holds 1.5 — while
`away_xg` is taken from the second occurrence as claimed. -/
theorem C6_xg_index_zero_counterexample :
    xgIndices (["xG", "Date", "Home", "Score", "Away", "xG"].map pyStrip) = [0, 5] ∧
    scrape_league (.resp 200 docC6) "Premier League" 9 =
      .ok [{ league_name := "Premier League", league_id := 9, date := "d1",
             home_team := "A", home_xg := "", away_team := "B", away_xg := "0.5",
             home_score := 2, away_score := 1, score := "2-1" }] :=
  ⟨rfl, rfl⟩

/-- C1 — amended.  Every record emitted by the extractor carries the league
name and identifier passed in, and its two scores are exactly the `int`
parses of the two sides of its own score text's split, so a record is never
stored with a partially parsed score; each score is non-negative whenever
its side of the split does not begin with a minus sign (Python `int` also
accepts signed numerals, so non-negativity is not unconditional). -/
theorem C1_record_fields (fetch : Fetch) (nm : String) (lid : Nat)
    (out : List MatchRecord) (hout : scrape_league fetch nm lid = .ok out) :
    ∀ rec ∈ out, rec.league_name = nm ∧ rec.league_id = lid ∧
      ∃ a b, splitScore rec.score = some (a, b) ∧
        parseIntPy a = some rec.home_score ∧ parseIntPy b = some rec.away_score ∧
        ((trimChars a.data).head? ≠ some '-' → 0 ≤ rec.home_score) ∧
        ((trimChars b.data).head? ≠ some '-' → 0 ≤ rec.away_score) := by
  intro rec hrec
  rcases scrape_league_ok_inv fetch nm lid out hout with rfl | ⟨hs, rows, d1, h1, s1, a1, rfl⟩
  · cases hrec
  · rw [List.mem_filterMap] at hrec
    obtain ⟨row, -, hp⟩ := hrec
    obtain ⟨he1, he2, a, b, hsp, hpa, hpb⟩ :=
      parseRow_spec d1 h1 s1 a1 _ _ nm lid row rec hp
    exact ⟨he1, he2, a, b, hsp, hpa, hpb,
      fun hn => parseIntPy_nonneg a rec.home_score hpa hn,
      fun hn => parseIntPy_nonneg b rec.away_score hpb hn⟩

/-- The single record extracted from `docC1`. -/
def recC1 : MatchRecord :=
  { league_name := "Premier League", league_id := 9, date := "d1",
    home_team := "A", home_xg := "", away_team := "B", away_xg := "",
    home_score := -1, away_score := 2, score := scoreNeg }

/-- Witness instantiating `C1_record_fields` on a concrete document. -/
theorem C1_record_fields_witness :
    recC1.league_name = "Premier League" ∧ recC1.league_id = 9 ∧
      ∃ a b, splitScore recC1.score = some (a, b) ∧
        parseIntPy a = some recC1.home_score ∧ parseIntPy b = some recC1.away_score ∧
        ((trimChars a.data).head? ≠ some '-' → 0 ≤ recC1.home_score) ∧
        ((trimChars b.data).head? ≠ some '-' → 0 ≤ recC1.away_score) :=
  C1_record_fields (.resp 200 docC1) "Premier League" 9 [recC1] rfl recC1
    (List.mem_singleton.mpr rfl)

/-- C5 — confirmed.  A score text 2-2 parses to scores 2 and 2; the en-dash
score 3–0 parses to 3 and 0; a missing, unseparated or non-numeric score
skips the row silently while the extractor still succeeds; and whenever the
score text contains an en-dash, the split happens on the en-dash even if an
ASCII hyphen is also present (demonstrated on 1–-2, whose hyphen-split
would not parse). -/
theorem C5_score_cell_parsing :
    scrape_league (.resp 200 docC5) "Premier League" 9 =
      .ok [{ league_name := "Premier League", league_id := 9, date := "d1",
             home_team := "A", home_xg := "", away_team := "B", away_xg := "",
             home_score := 2, away_score := 2, score := "2-2" },
           { league_name := "Premier League", league_id := 9, date := "d2",
             home_team := "C", home_xg := "", away_team := "D", away_xg := "",
             home_score := 3, away_score := 0, score := scoreEn30 }] ∧
    splitScore scoreBoth = some ("1", "-2") ∧
    scoreBoth.data.contains '-' = true ∧
    scoreBoth.data.contains endash = true ∧
    (∀ s : String, s.data.contains endash = true →
      splitScore s = splitPair (splitChar endash s.data)) := by
  refine ⟨rfl, rfl, rfl, rfl, ?_⟩
  intro s hc
  have hne : s ≠ "" := by
    intro he
    subst he
    cases hc
  rw [splitScore, if_neg hne, if_neg (fun hand => hand.1 hc), if_pos hc]

/-- Witness instantiating the en-dash priority clause of
`C5_score_cell_parsing` at the concrete score text 3–0. -/
theorem C5_score_cell_parsing_witness :
    splitScore scoreEn30 = splitPair (splitChar endash scoreEn30.data) :=
  C5_score_cell_parsing.2.2.2.2 scoreEn30 rfl

/-- C8 — confirmed.  Whenever the document does yield a header row and any
of the four required column names is absent from it, the extractor returns
an empty record sequence: not a partial one and not an error. -/
theorem C8_missing_column_empty (d : Doc) (nm : String) (lid : Nat)
    (hs : List String) (hh : headersOf d = some hs)
    (hmiss : "Date" ∉ hs ∨ "Home" ∉ hs ∨ "Score" ∉ hs ∨ "Away" ∉ hs) :
    scrape_league (.resp 200 d) nm lid = .ok [] := by
  obtain ⟨st⟩ := d
  cases st with
  | none => rfl
  | some ot =>
  cases ot with
  | none => rfl
  | some table =>
  obtain ⟨th, tb⟩ := table
  cases th with
  | none => rfl
  | some trs =>
  simp only [headersOf] at hh
  cases htr : trs.getLast? with
  | none => rw [htr] at hh; cases hh
  | some lastTr =>
  rw [htr] at hh
  simp only [Option.map_some'] at hh
  injection hh with hh
  subst hh
  simp only [scrape_league, if_neg (by decide : ¬ (200 = 429)),
    if_neg (by decide : ¬ (200 ≠ 200))]
  rw [htr]
  dsimp only
  rcases hmiss with hm | hm | hm | hm
  all_goals rw [(lastIndexOf_eq_none (lastTr.map pyStrip) _).mpr hm]
  · cases lastIndexOf (lastTr.map pyStrip) "Date" <;> rfl
  · cases lastIndexOf (lastTr.map pyStrip) "Date" <;>
      cases lastIndexOf (lastTr.map pyStrip) "Home" <;> rfl
  · cases lastIndexOf (lastTr.map pyStrip) "Date" <;>
      cases lastIndexOf (lastTr.map pyStrip) "Home" <;>
        cases lastIndexOf (lastTr.map pyStrip) "Score" <;> rfl

/-- Witness instantiating `C8_missing_column_empty` on a document whose
header lacks the Score column. -/
theorem C8_missing_column_empty_witness :
    scrape_league (.resp 200 docC8) "Premier League" 9 = .ok [] :=
  C8_missing_column_empty docC8 "Premier League" 9 ["Date", "Home", "Away"] rfl
    (Or.inr (Or.inr (Or.inl (by decide))))

/-- C9 — confirmed.  The rows returned by `get_team_results` are ordered
so that every earlier row's raw date string is lexically greater than or
equal to every later row's. -/
theorem C9_date_sorted (df : List MatchRecord) (team : String) :
    List.Pairwise (fun a b : TRow => b.date ≤ a.date) (get_team_results df team) := by
  have hs : List.Sorted dateDesc
      (List.insertionSort dateDesc
        ((df.filter (fun m => m.home_team == team)).map mkHomeRow ++
         (df.filter (fun m => m.away_team == team)).map mkAwayRow)) :=
    List.sorted_insertionSort dateDesc _
  refine List.Pairwise.imp ?_ hs
  intro a b hab
  exact String.le_iff_toList_le.mpr hab

lemma resultOf_spec (ts os : Int) :
    (resultOf ts os = "W" ↔ os < ts) ∧ (resultOf ts os = "L" ↔ ts < os) ∧
    (resultOf ts os = "D" ↔ ts = os) := by
  rcases lt_trichotomy ts os with hlt | heq | hgt
  · rw [resultOf, if_neg (by omega), if_pos hlt]
    exact ⟨iff_of_false (by decide) (by omega), iff_of_true rfl hlt,
      iff_of_false (by decide) (by omega)⟩
  · rw [resultOf, if_neg (by omega), if_neg (by omega)]
    exact ⟨iff_of_false (by decide) (by omega), iff_of_false (by decide) (by omega),
      iff_of_true rfl heq⟩
  · rw [resultOf, if_pos hgt]
    exact ⟨iff_of_true rfl hgt, iff_of_false (by decide) (by omega),
      iff_of_false (by decide) (by omega)⟩

lemma length_filter_or {α : Type} (p q : α → Bool) (l : List α)
    (h : ∀ x ∈ l, ¬ (p x = true ∧ q x = true)) :
    (l.filter (fun x => p x || q x)).length =
      (l.filter p).length + (l.filter q).length := by
  induction l with
  | nil => rfl
  | cons x xs ih =>
    have hx := h x (List.mem_cons_self x xs)
    have hxs := ih fun y hy => h y (List.mem_cons_of_mem x hy)
    by_cases hp : p x = true
    · have hq : q x = false := by
        cases hq2 : q x
        · rfl
        · exact absurd ⟨hp, hq2⟩ hx
      simp [List.filter_cons, hp, hq, hxs]
      omega
    · by_cases hq : q x = true
      · simp [List.filter_cons, hp, hq, hxs]
        omega
      · simp [List.filter_cons, hp, hq, hxs]

/-- C4 — amended.  For collections in which no match lists the team on both
sides,  `get_team_results` is exhaustive and exclusive: up to the final
date ordering it consists of exactly one Home-tagged row per match where
the team is the home participant and one Away-tagged row (fields swapped)
per match where it is the away participant; its row count equals the
number of matches in which the team is either participant; and each row's
result is derived by comparing `team_score` to `opp_score`.  (The
counterexample shows the count claim fails when a match names the team as
both participants, hence the added hypothesis.) -/
theorem C4_team_results_partition (df : List MatchRecord) (t : String)
    (h : ∀ m ∈ df, ¬ (m.home_team = t ∧ m.away_team = t)) :
    (get_team_results df t).Perm
        ((df.filter (fun m => m.home_team == t)).map mkHomeRow ++
         (df.filter (fun m => m.away_team == t)).map mkAwayRow) ∧
    (get_team_results df t).length =
      (df.filter (fun m => m.home_team == t || m.away_team == t)).length ∧
    ∀ r ∈ get_team_results df t,
      (r.result = "W" ↔ r.opp_score < r.team_score) ∧
      (r.result = "L" ↔ r.team_score < r.opp_score) ∧
      (r.result = "D" ↔ r.team_score = r.opp_score) := by
  have hperm : (get_team_results df t).Perm
      ((df.filter (fun m => m.home_team == t)).map mkHomeRow ++
       (df.filter (fun m => m.away_team == t)).map mkAwayRow) :=
    List.perm_insertionSort dateDesc _
  refine ⟨hperm, ?_, ?_⟩
  · rw [hperm.length_eq, List.length_append, List.length_map, List.length_map]
    rw [length_filter_or (fun m => m.home_team == t) (fun m => m.away_team == t) df ?_]
    intro m hm
    rw [beq_iff_eq, beq_iff_eq]
    exact h m hm
  · intro r hr
    have hr2 := hperm.mem_iff.mp hr
    rcases List.mem_append.mp hr2 with hm | hm
    · obtain ⟨m, -, rfl⟩ := List.mem_map.mp hm
      exact resultOf_spec m.home_score m.away_score
    · obtain ⟨m, -, rfl⟩ := List.mem_map.mp hm
      exact resultOf_spec m.away_score m.home_score

/-- A single ordinary match used to instantiate `C4_team_results_partition`. -/
def dfC4w : List MatchRecord :=
  [ { league_name := "PL", league_id := 9, date := "d1", home_team := "A", home_xg := "",
      away_team := "B", away_xg := "", home_score := 2, away_score := 1, score := "2-1" } ]

/-- Witness instantiating `C4_team_results_partition`: the row count
equals the participating-match count on a concrete collection. -/
theorem C4_team_results_partition_witness :
    (get_team_results dfC4w "A").length =
      (dfC4w.filter (fun m => m.home_team == "A" || m.away_team == "A")).length :=
  (C4_team_results_partition dfC4w "A" (by decide)).2.1

lemma resultOf_cases (ts os : Int) :
    resultOf ts os = "W" ∨ resultOf ts os = "L" ∨ resultOf ts os = "D" := by
  simp only [resultOf]
  split_ifs <;> simp

lemma mem_get_team_results_result (df : List MatchRecord) (t : String) (r : TRow)
    (h : r ∈ get_team_results df t) :
    r.result = "W" ∨ r.result = "L" ∨ r.result = "D" := by
  have h2 : r ∈ ((df.filter (fun m => m.home_team == t)).map mkHomeRow ++
      (df.filter (fun m => m.away_team == t)).map mkAwayRow) :=
    (List.mem_insertionSort dateDesc).mp h
  rcases List.mem_append.mp h2 with hm | hm <;> obtain ⟨m, -, rfl⟩ := List.mem_map.mp hm
  · exact resultOf_cases m.home_score m.away_score
  · exact resultOf_cases m.away_score m.home_score

lemma append_head_ne (x y : Char) (hxy : x ≠ y) (u v : String) :
    String.mk [x] ++ u ≠ String.mk [y] ++ v := by
  intro h
  have h3 := congrArg String.data h
  rw [String.data_append, String.data_append] at h3
  have h2 : x :: u.data = y :: v.data := h3
  injection h2 with ha _
  exact hxy ha

/-- The first row of any window matching an all-`c` pattern has result
`c` (for the patterns the code uses). -/
lemma head_result_eq (r : TRow) (l : List TRow) (n : Nat) (c : String)
    (hn : n ≠ 0)
    (hs : resultsStr ((r :: l).take n) = repeatStr c n)
    (hr : r.result = "W" ∨ r.result = "L" ∨ r.result = "D")
    (hc : c = "W" ∨ c = "L") :
    r.result = c := by
  obtain ⟨k, rfl⟩ := Nat.exists_eq_succ_of_ne_zero hn
  rw [List.take_succ_cons] at hs
  simp only [resultsStr, repeatStr] at hs
  rcases hr with h | h | h <;> rcases hc with h2 | h2 <;> rw [h, h2] <;> rw [h, h2] at hs <;>
    first
      | rfl
      | exact absurd hs (append_head_ne _ _ (by decide) _ _)

lemma streakCheck_some (t : String) (results : List TRow) (n : Nat) (c : String)
    (g : StreakGroup) (h : streakCheck t results n c = .ok (some g)) :
    g.team = t ∧ results.take n ≠ [] ∧
    resultsStr (results.take n) = repeatStr c n ∧ g.games = results.take n := by
  simp only [streakCheck] at h
  split at h
  · rename_i hstr
    split at h
    · cases h
    · rename_i r rest htake
      injection h with h
      injection h with h
      subst h
      refine ⟨rfl, ?_, hstr, ?_⟩
      · rw [htake]
        simp
      · rw [htake]
  · injection h with h
    cases h

/-- Windows of wins and of losses cannot both start at the head of the
same result sequence. -/
lemma streaks_conflict (df : List MatchRecord) (t : String) (wn ls : Nat)
    (hwne : (get_team_results df t).take wn ≠ [])
    (hw : resultsStr ((get_team_results df t).take wn) = repeatStr "W" wn)
    (hlne : (get_team_results df t).take ls ≠ [])
    (hl : resultsStr ((get_team_results df t).take ls) = repeatStr "L" ls) :
    False := by
  cases hres : get_team_results df t with
  | nil =>
    rw [hres] at hwne
    simp at hwne
  | cons r rest =>
    have hrmem : r ∈ get_team_results df t := by
      rw [hres]
      exact List.mem_cons_self r rest
    have hr3 := mem_get_team_results_result df t r hrmem
    rw [hres] at hwne hw hlne hl
    have hwn0 : wn ≠ 0 := by
      intro h0
      rw [h0] at hwne
      simp at hwne
    have hls0 : ls ≠ 0 := by
      intro h0
      rw [h0] at hlne
      simp at hlne
    have h1 := head_result_eq r rest wn "W" hwn0 hw hr3 (Or.inl rfl)
    have h2 := head_result_eq r rest ls "L" hls0 hl hr3 (Or.inr rfl)
    rw [h1] at h2
    exact absurd h2 (by decide)

/-- Invariant of the per-team loop: over a duplicate-free team list, every
win group's and loss group's team is one of the processed teams, and no
team owns both a win group and a loss group. -/
lemma streaksLoop_inv (df : List MatchRecord) (wn ls : Nat) :
    ∀ ts : List String, ts.Nodup →
      ∀ ws lss : List StreakGroup,
        streaksLoop df wn ls ts = .ok (ws, lss) →
        (∀ g ∈ ws, g.team ∈ ts) ∧ (∀ g ∈ lss, g.team ∈ ts) ∧
        (∀ g ∈ ws, ∀ g2 ∈ lss, g.team ≠ g2.team) := by
  intro ts
  induction ts with
  | nil =>
    intro _ ws lss h
    injection h with h
    injection h with h1 h2
    subst h1
    subst h2
    exact ⟨by simp, by simp, by simp⟩
  | cons t ts ih =>
    intro hnd ws lss h
    have hnd2 := (List.nodup_cons.mp hnd).2
    have htni : t ∉ ts := (List.nodup_cons.mp hnd).1
    rw [streaksLoop] at h
    split at h
    · obtain ⟨h1, h2, h3⟩ := ih hnd2 ws lss h
      exact ⟨fun g hg => List.mem_cons_of_mem t (h1 g hg),
        fun g hg => List.mem_cons_of_mem t (h2 g hg), h3⟩
    · split at h
      · cases h
      · rename_i w hwsome
        split at h
        · cases h
        · rename_i l hlsome
          split at h
          · cases h
          · rename_i ws2 lss2 hrec
            injection h with h
            injection h with h1 h2
            subst h1
            subst h2
            obtain ⟨ih1, ih2, ih3⟩ := ih hnd2 ws2 lss2 hrec
            have hwteam : ∀ g ∈ w.toList, g.team = t ∧
                (get_team_results df t).take wn ≠ [] ∧
                resultsStr ((get_team_results df t).take wn) = repeatStr "W" wn := by
              intro g hg
              rw [Option.mem_toList, Option.mem_def] at hg
              subst hg
              split at hwsome
              · obtain ⟨ha, hb, hc, -⟩ := streakCheck_some _ _ _ _ _ hwsome
                exact ⟨ha, hb, hc⟩
              · injection hwsome with hx
                cases hx
            have hlteam : ∀ g ∈ l.toList, g.team = t ∧
                (get_team_results df t).take ls ≠ [] ∧
                resultsStr ((get_team_results df t).take ls) = repeatStr "L" ls := by
              intro g hg
              rw [Option.mem_toList, Option.mem_def] at hg
              subst hg
              split at hlsome
              · obtain ⟨ha, hb, hc, -⟩ := streakCheck_some _ _ _ _ _ hlsome
                exact ⟨ha, hb, hc⟩
              · injection hlsome with hx
                cases hx
            refine ⟨?_, ?_, ?_⟩
            · intro g hg
              rcases List.mem_append.mp hg with hg | hg
              · exact ((hwteam g hg).1) ▸ List.mem_cons_self t ts
              · exact List.mem_cons_of_mem t (ih1 g hg)
            · intro g hg
              rcases List.mem_append.mp hg with hg | hg
              · exact ((hlteam g hg).1) ▸ List.mem_cons_self t ts
              · exact List.mem_cons_of_mem t (ih2 g hg)
            · intro g hg g2 hg2
              rcases List.mem_append.mp hg with hg | hg <;>
                rcases List.mem_append.mp hg2 with hg2 | hg2
              · obtain ⟨hgt, hwne, hwstr⟩ := hwteam g hg
                obtain ⟨hgt2, hlne, hlstr⟩ := hlteam g2 hg2
                exact (streaks_conflict df t wn ls hwne hwstr hlne hlstr).elim
              · obtain ⟨hgt, -, -⟩ := hwteam g hg
                intro he
                refine htni ?_
                rw [← hgt, he]
                exact ih2 g2 hg2
              · obtain ⟨hgt2, -, -⟩ := hlteam g2 hg2
                intro he
                refine htni ?_
                rw [← hgt2, ← he]
                exact ih1 g hg
              · exact ih3 g hg g2 hg2

/-- C7 — counterexample (negation of the claim as stated): there is no
input at all — whatever the match collection, the two streak lengths and
the team — on which `find_game_streaks` succeeds with one team appearing
in both the win group and the loss group.  Both windows are prefixes of
the same result sequence, so its first row would need to be both a win
and a loss. -/
theorem C7_both_groups_impossible :
    ¬ ∃ (df : List MatchRecord) (wn ls : Nat) (t : String)
        (ws lss : List StreakGroup),
        wn ≠ ls ∧ find_game_streaks df wn ls = .ok (ws, lss) ∧
        (∃ g ∈ ws, g.team = t) ∧ (∃ g2 ∈ lss, g2.team = t) := by
  rintro ⟨df, wn, ls, t, ws, lss, -, h, ⟨g, hg, hgt⟩, ⟨g2, hg2, hgt2⟩⟩
  have hinv := streaksLoop_inv df wn ls (teamsOf df) (List.nodup_dedup _) ws lss h
  exact hinv.2.2 g hg g2 hg2 (hgt.trans hgt2.symm)

/-- C7 — amended.  The win check and the loss check are structurally
independent (the code evaluates both, neither gated on the other), but
they are mutually exclusive in effect: for any streak lengths, no team
ever appears in both the win and the loss group of one successful
`find_game_streaks` call, because both windows contain the most recent
row, which cannot be both a win and a loss. -/
theorem C7_groups_disjoint (df : List MatchRecord) (wn ls : Nat)
    (ws lss : List StreakGroup)
    (h : find_game_streaks df wn ls = .ok (ws, lss)) :
    ∀ g ∈ ws, ∀ g2 ∈ lss, g.team ≠ g2.team :=
  (streaksLoop_inv df wn ls (teamsOf df) (List.nodup_dedup _) ws lss h).2.2

/-- The win-streak rows of team A in `dfC7w`. -/
def rowsA : List TRow :=
  [ { date := "d3", opponent := "B", location := "H", team_score := 2, opp_score := 1,
      team_xg := "", opp_xg := "", result := "W", league_name := "PL", league_id := 9 },
    { date := "d2", opponent := "B", location := "H", team_score := 3, opp_score := 0,
      team_xg := "", opp_xg := "", result := "W", league_name := "PL", league_id := 9 },
    { date := "d1", opponent := "B", location := "H", team_score := 1, opp_score := 0,
      team_xg := "", opp_xg := "", result := "W", league_name := "PL", league_id := 9 } ]

/-- The loss-streak rows of team B in `dfC7w`. -/
def rowsB : List TRow :=
  [ { date := "d3", opponent := "A", location := "A", team_score := 1, opp_score := 2,
      team_xg := "", opp_xg := "", result := "L", league_name := "PL", league_id := 9 },
    { date := "d2", opponent := "A", location := "A", team_score := 0, opp_score := 3,
      team_xg := "", opp_xg := "", result := "L", league_name := "PL", league_id := 9 },
    { date := "d1", opponent := "A", location := "A", team_score := 0, opp_score := 1,
      team_xg := "", opp_xg := "", result := "L", league_name := "PL", league_id := 9 } ]

/-- Team A's win group on `dfC7w`. -/
def gA : StreakGroup := { team := "A", league_name := "PL", league_id := 9, games := rowsA }

/-- Team B's loss group on `dfC7w`. -/
def gB : StreakGroup := { team := "B", league_name := "PL", league_id := 9, games := rowsB }

/-- Witness instantiating `C7_groups_disjoint` on a concrete collection
whose win and loss groups are both nonempty. -/
theorem C7_groups_disjoint_witness : gA.team ≠ gB.team :=
  C7_groups_disjoint dfC7w 3 3 [gA] [gB] rfl gA (List.mem_singleton.mpr rfl) gB
    (List.mem_singleton.mpr rfl)

/-- Reduction of the extractor on the success path: schedule div, table,
header and body present and all four required columns resolved. -/
lemma scrape_league_ok (d : Doc) (nm : String) (lid : Nat) (hs : List String)
    (rows : List HtmlRow) (d1 h1 s1 a1 : Nat)
    (hh : headersOf d = some hs) (hb : tbodyOf d = some rows)
    (hd1 : lastIndexOf hs "Date" = some d1) (hh1 : lastIndexOf hs "Home" = some h1)
    (hs1 : lastIndexOf hs "Score" = some s1) (ha1 : lastIndexOf hs "Away" = some a1) :
    scrape_league (.resp 200 d) nm lid =
      .ok (rows.filterMap
        (parseRow d1 h1 s1 a1 ((xgIndices hs).get? 0) ((xgIndices hs).get? 1) nm lid)) := by
  obtain ⟨st⟩ := d
  cases st with
  | none => simp [headersOf] at hh
  | some ot =>
  cases ot with
  | none => simp [headersOf] at hh
  | some table =>
  obtain ⟨th, tb⟩ := table
  cases th with
  | none => simp [headersOf] at hh
  | some trs =>
  simp only [headersOf] at hh
  simp only [tbodyOf] at hb
  cases htr : trs.getLast? with
  | none => rw [htr] at hh; cases hh
  | some lastTr =>
  rw [htr] at hh
  simp only [Option.map_some'] at hh
  injection hh with hh
  subst hh
  subst hb
  simp only [scrape_league, if_neg (by decide : ¬ (200 = 429)),
    if_neg (by decide : ¬ (200 ≠ 200))]
  rw [htr]
  dsimp only
  rw [hd1, hh1, hs1, ha1]

/-- The optional-column positions are strictly increasing. -/
lemma xgIndices_sorted (hs : List String) : (xgIndices hs).Pairwise (· < ·) :=
  (List.pairwise_lt_range hs.length).filter _

/-- The xG cells stored by a successfully parsed row, exactly as the
conditional expressions of `app.py` lines 132-133 compute them. -/
lemma parseRow_xg (d1 h1 s1 a1 : Nat) (hxg axg : Option Nat) (nm : String)
    (lid : Nat) (row : HtmlRow) (rec : MatchRecord)
    (h : parseRow d1 h1 s1 a1 hxg axg nm lid row = some rec) :
    rec.home_xg = xgCell hxg row.cells ∧ rec.away_xg = xgCell axg row.cells := by
  simp only [parseRow] at h
  split at h
  · cases h
  · split at h
    · cases h
    · split at h
      · cases h
      · split at h
        · injection h with h
          subst h
          exact ⟨rfl, rfl⟩
        · cases h

/-- C6 — amended.  On any document with the required columns resolved, the
extractor uses the first header column literally named xG as the home-team
expected-goals column and the second such occurrence as the away-team one,
except that a first occurrence at positional index 0 is treated as absent
(the code's presence test is plain truthiness), leaving `home_xg` empty;
with fewer than two occurrences the corresponding value is empty in every
emitted record, and a column beyond a short row also yields the empty
string. -/
theorem C6_xg_resolution (d : Doc) (nm : String) (lid : Nat) (hs : List String)
    (rows : List HtmlRow) (d1 h1 s1 a1 : Nat)
    (hh : headersOf d = some hs) (hb : tbodyOf d = some rows)
    (hd1 : lastIndexOf hs "Date" = some d1) (hh1 : lastIndexOf hs "Home" = some h1)
    (hs1 : lastIndexOf hs "Score" = some s1) (ha1 : lastIndexOf hs "Away" = some a1) :
    ∃ out, scrape_league (.resp 200 d) nm lid = .ok out ∧
      ∀ rec ∈ out, ∃ row ∈ rows,
        (xgIndices hs = [] → rec.home_xg = "" ∧ rec.away_xg = "") ∧
        (∀ i, xgIndices hs = [i] →
          rec.away_xg = "" ∧
          (i ≠ 0 → i < row.cells.length → rec.home_xg = pyStrip (row.cells.getD i "")) ∧
          (i = 0 → rec.home_xg = "")) ∧
        (∀ i j rest, xgIndices hs = i :: j :: rest →
          (i ≠ 0 → i < row.cells.length → rec.home_xg = pyStrip (row.cells.getD i "")) ∧
          (i = 0 → rec.home_xg = "") ∧
          (j < row.cells.length → rec.away_xg = pyStrip (row.cells.getD j "")) ∧
          (¬ j < row.cells.length → rec.away_xg = "")) := by
  refine ⟨_, scrape_league_ok d nm lid hs rows d1 h1 s1 a1 hh hb hd1 hh1 hs1 ha1, ?_⟩
  intro rec hrec
  rw [List.mem_filterMap] at hrec
  obtain ⟨row, hrow, hp⟩ := hrec
  obtain ⟨hhome, haway⟩ := parseRow_xg _ _ _ _ _ _ _ _ _ _ hp
  refine ⟨row, hrow, ?_, ?_, ?_⟩
  · intro hnil
    rw [hnil] at hhome haway
    simp only [List.get?, xgCell] at hhome haway
    exact ⟨hhome, haway⟩
  · intro i hi
    rw [hi] at hhome haway
    simp only [List.get?, xgCell] at hhome haway
    refine ⟨haway, ?_, ?_⟩
    · intro hne hlt
      rw [hhome, if_pos ⟨hne, hlt⟩]
    · intro h0
      rw [hhome, if_neg (fun hand => hand.1 h0)]
  · intro i j rest hij
    rw [hij] at hhome haway
    simp only [List.get?, xgCell] at hhome haway
    have hijlt : i < j := by
      have hsorted := xgIndices_sorted hs
      rw [hij] at hsorted
      exact (List.pairwise_cons.mp hsorted).1 j (List.mem_cons_self j rest)
    have hj0 : j ≠ 0 := by omega
    refine ⟨?_, ?_, ?_, ?_⟩
    · intro hne hlt
      rw [hhome, if_pos ⟨hne, hlt⟩]
    · intro h0
      rw [hhome, if_neg (fun hand => hand.1 h0)]
    · intro hlt
      rw [haway, if_pos ⟨hj0, hlt⟩]
    · intro hnlt
      rw [haway, if_neg (fun hand => hnlt hand.2)]

/-- The headers of `docC6b`. -/
def hsC6b : List String := ["Date", "xG", "Home", "Score", "Away", "xG"]

/-- The single body row of `docC6b`. -/
def rowC6b : HtmlRow := { classes := [], cells := ["d1", "1.5", "A", "2-1", "B", "0.5"] }

/-- Witness instantiating `C6_xg_resolution` on a document whose xG
columns sit at indices 1 and 5. -/
theorem C6_xg_resolution_witness :
    ∃ out, scrape_league (.resp 200 docC6b) "Premier League" 9 = .ok out ∧
      ∀ rec ∈ out, ∃ row ∈ [rowC6b],
        (xgIndices hsC6b = [] → rec.home_xg = "" ∧ rec.away_xg = "") ∧
        (∀ i, xgIndices hsC6b = [i] →
          rec.away_xg = "" ∧
          (i ≠ 0 → i < row.cells.length → rec.home_xg = pyStrip (row.cells.getD i "")) ∧
          (i = 0 → rec.home_xg = "")) ∧
        (∀ i j rest, xgIndices hsC6b = i :: j :: rest →
          (i ≠ 0 → i < row.cells.length → rec.home_xg = pyStrip (row.cells.getD i "")) ∧
          (i = 0 → rec.home_xg = "") ∧
          (j < row.cells.length → rec.away_xg = pyStrip (row.cells.getD j "")) ∧
          (¬ j < row.cells.length → rec.away_xg = "")) :=
  C6_xg_resolution docC6b "Premier League" 9 hsC6b [rowC6b] 0 2 3 4
    rfl rfl rfl rfl rfl rfl

lemma filter_map_toM (df : List MatchRecord) (p : MatchRecordM → Bool)
    (q : MatchRecord → Bool) (hpq : ∀ m, p (toM m) = q m) :
    (df.map toM).filter p = (df.filter q).map toM := by
  induction df with
  | nil => rfl
  | cons m ms ih =>
    simp only [List.map_cons, List.filter_cons, hpq m]
    cases q m
    · simpa using ih
    · simpa using ih

lemma orderedInsert_map (a : TRow) (l : List TRow) :
    List.orderedInsert dateDescM (projT a) (l.map projT) =
      (List.orderedInsert dateDesc a l).map projT := by
  induction l with
  | nil => rfl
  | cons b bs ih =>
    simp only [List.map_cons, List.orderedInsert]
    by_cases h : dateDesc a b
    · have hM : dateDescM (projT a) (projT b) := h
      rw [if_pos h, if_pos hM]
      simp
    · have hM : ¬ dateDescM (projT a) (projT b) := h
      rw [if_neg h, if_neg hM]
      simp only [List.map_cons, ih]

lemma insertionSort_map (l : List TRow) :
    List.insertionSort dateDescM (l.map projT) =
      (List.insertionSort dateDesc l).map projT := by
  induction l with
  | nil => rfl
  | cons a l ih =>
    simp only [List.map_cons, List.insertionSort, ih, orderedInsert_map]

/-- The per-team result reconstructions of the two scripts agree up to the
league-field renaming. -/
lemma get_team_resultsM_toM (df : List MatchRecord) (t : String) :
    get_team_resultsM (df.map toM) t = (get_team_results df t).map projT := by
  show List.insertionSort dateDescM
      (((df.map toM).filter (fun m => m.home_team == t)).map mkHomeRowM ++
       ((df.map toM).filter (fun m => m.away_team == t)).map mkAwayRowM) = _
  rw [filter_map_toM df (fun m => m.home_team == t) (fun m => m.home_team == t)
        (fun m => rfl),
      filter_map_toM df (fun m => m.away_team == t) (fun m => m.away_team == t)
        (fun m => rfl),
      List.map_map, List.map_map]
  have e1 : mkHomeRowM ∘ toM = projT ∘ mkHomeRow := rfl
  have e2 : mkAwayRowM ∘ toM = projT ∘ mkAwayRow := rfl
  rw [e1, e2, ← List.map_map, ← List.map_map, ← List.map_append, insertionSort_map]
  rfl

lemma resultsStrM_map (l : List TRow) : resultsStrM (l.map projT) = resultsStr l := by
  induction l with
  | nil => rfl
  | cons r l ih =>
    simp only [List.map_cons, resultsStrM, resultsStr, ih]
    rfl

lemma teamsOfM_toM (df : List MatchRecord) : teamsOfM (df.map toM) = teamsOf df := by
  show ((df.map toM).map MatchRecordM.home_team ++
      (df.map toM).map MatchRecordM.away_team).dedup = _
  rw [List.map_map, List.map_map]
  rfl

/-- The two loops agree team by team: same success, same teams in each
group, and the same window rows up to the league-field renaming. -/
lemma streaksLoop_corr (df : List MatchRecord) :
    ∀ ts : List String, ∃ ws lss wsM lssM,
      streaksLoop df 3 3 ts = .ok (ws, lss) ∧
      streaksLoopM (df.map toM) ts = .ok (wsM, lssM) ∧
      ws.map projG = wsM.map projGM ∧ lss.map projG = lssM.map projGM := by
  intro ts
  induction ts with
  | nil => exact ⟨[], [], [], [], rfl, rfl, rfl, rfl⟩
  | cons t ts ih =>
    obtain ⟨ws, lss, wsM, lssM, h1, h2, h3, h4⟩ := ih
    simp only [streaksLoop, streaksLoopM, get_team_resultsM_toM df t]
    cases hgen : get_team_results df t with
    | nil =>
      rw [if_pos (by decide), if_pos (by decide)]
      exact ⟨ws, lss, wsM, lssM, h1, h2, h3, h4⟩
    | cons r rest =>
      simp only [List.map_cons, List.length_cons, List.length_map, Nat.max_self]
      by_cases hshort : rest.length + 1 < 3
      · rw [if_pos hshort, if_pos hshort]
        exact ⟨ws, lss, wsM, lssM, h1, h2, h3, h4⟩
      · rw [if_neg hshort, if_neg hshort,
          if_pos (by omega), if_pos (by omega)]
        simp only [streakCheck, List.take_succ_cons]
        have hstr : resultsStrM (projT r :: (rest.map projT).take 2) =
            resultsStr (r :: rest.take 2) := by
          rw [← List.map_take, ← List.map_cons, resultsStrM_map]
        by_cases hW : resultsStr (r :: rest.take 2) = "WWW"
        · rw [if_pos (show resultsStr (r :: rest.take 2) = repeatStr "W" 3 from hW),
            if_neg (fun hL => by
              rw [hW] at hL
              exact absurd hL (by decide)),
            if_pos (by rw [hstr]; exact hW), h1, h2]
          refine ⟨{ team := t, league_name := r.league_name, league_id := r.league_id,
                    games := r :: List.take 2 rest } :: ws, lss,
            { team := t, league := (projT r).league,
               games := projT r :: List.take 2 (List.map projT rest) } :: wsM, lssM,
            by simp, rfl, ?_, h4⟩
          simp only [List.map_cons, projG, projGM, List.map_take]
          rw [h3]
        · by_cases hL : resultsStr (r :: rest.take 2) = "LLL"
          · rw [if_neg (fun hw2 => hW (by rw [hw2]; rfl)),
              if_pos (show resultsStr (r :: rest.take 2) = repeatStr "L" 3 from hL),
              if_neg (by rw [hstr]; exact hW),
              if_pos (by rw [hstr]; exact hL), h1, h2]
            refine ⟨ws,
              { team := t, league_name := r.league_name, league_id := r.league_id,
                 games := r :: List.take 2 rest } :: lss, wsM,
              { team := t, league := (projT r).league,
                 games := projT r :: List.take 2 (List.map projT rest) } :: lssM,
              by simp, rfl, h3, ?_⟩
            simp only [List.map_cons, projG, projGM, List.map_take]
            rw [h4]
          · rw [if_neg (fun hw2 => hW (by rw [hw2]; rfl)),
              if_neg (fun hl2 => hL (by rw [hl2]; rfl)),
              if_neg (by rw [hstr]; exact hW),
              if_neg (by rw [hstr]; exact hL), h1]
            exact ⟨ws, lss, wsM, lssM, by simp, h2, h3, h4⟩

/-- C10 — confirmed.  On any match collection (translated between the two
scripts' record schemas by `toM`), `app.py`'s `find_game_streaks` with win
and loss length 3 and `max.py`'s `find_3_game_streaks` both succeed and
produce the same teams in the win group and in the loss group, in the same
order and with the same trailing rows per team (compared up to the
league-field naming), despite `max.py` testing the loss pattern only in an
`elif` branch. -/
theorem C10_scripts_equivalent (df : List MatchRecord) :
    ∃ ws lss wsM lssM,
      find_game_streaks df 3 3 = .ok (ws, lss) ∧
      find_3_game_streaks (df.map toM) = .ok (wsM, lssM) ∧
      ws.map projG = wsM.map projGM ∧ lss.map projG = lssM.map projGM := by
  obtain ⟨ws, lss, wsM, lssM, h1, h2, h3, h4⟩ := streaksLoop_corr df (teamsOf df)
  refine ⟨ws, lss, wsM, lssM, h1, ?_, h3, h4⟩
  show streaksLoopM (df.map toM) (teamsOfM (df.map toM)) = _
  rw [teamsOfM_toM]
  exact h2

end LeagueWinLoss
